import Mathlib

/-!
Verification development for `src/component/handlers/edit/editOnBeforeInput.js`
of the draft-js repository fragment.

The file under scrutiny is a single browser event handler. Its external
collaborators (the immutable content-model library: `DraftModifier`,
`EditorState.push` / `forceSelection`, `getEntityKeyForSelection`,
`BlockTree.getFingerprint`, `isSelectionAtLeafStart`; the DOM selection;
the `UserAgent` browser sniff; the `handleBeforeInput` prop) are, per the
specification, out of scope and are therefore embedded as parameters of an
environment record `Env`.  The handler itself is translated line by line
into the pure function `editOnBeforeInput`, which returns a `Result`
recording every observable effect of one invocation: whether
`e.preventDefault()` was called, the entry flush of a previously pending
state, the synchronous `editor.update` calls in order, the final editor
fields, whether a `setImmediate` callback was scheduled, and which
prevent-native heuristic checks were evaluated (mirroring the sequential
`if (!mustPreventNative)` blocks of lines 164-209).
-/

namespace DraftJS

/-- DOM constant `Node.TEXT_NODE`. -/
def NodeTEXTNODE : Nat := 3

/-- Modelled from the spec: the content state is the editor's immutable
representation of document text, styles and entities.  The handler only
observes its plain text (`getPlainText`, line 125); everything else is
opaque data (`rest`). -/
structure ContentState where
  plainText : String
  rest : Nat
deriving DecidableEq, Repr

/-- Modelled from the spec: `SelectionState` is an external collaborator
providing selection queries.  It is the standard immutable record of the
model library, storing anchor/focus keys and offsets plus direction, with
the derived getters used by the handler defined below. -/
structure SelectionState where
  anchorKey : String
  anchorOffset : Nat
  focusKey : String
  focusOffset : Nat
  isBackward : Bool
  hasFocus : Bool
deriving DecidableEq, Repr

/-- Selection query `getStartOffset`: the offset of the leading edge. -/
def SelectionState.getStartOffset (s : SelectionState) : Nat :=
  if s.isBackward then s.focusOffset else s.anchorOffset

/-- Selection query `getEndOffset`: the offset of the trailing edge. -/
def SelectionState.getEndOffset (s : SelectionState) : Nat :=
  if s.isBackward then s.anchorOffset else s.focusOffset

/-- Selection query `isCollapsed`: anchor and focus coincide. -/
def SelectionState.isCollapsed (s : SelectionState) : Bool :=
  s.anchorKey == s.focusKey && s.anchorOffset == s.focusOffset

/-- Modelled from the spec: the editor state (external immutable model)
restricted to the queries the handler performs: `getSelection`,
`getCurrentContent`, `getCurrentInlineStyle`, `getBlockTree(key)`,
`getDirectionMap`, and the `nativelyRenderedContent` field set on line
218.  Block trees are opaque data (`Nat`); the direction map and the
block-tree map are association lists keyed by block key. -/
structure EditorState where
  selection : SelectionState
  currentContent : ContentState
  currentInlineStyle : List String
  blockTrees : List (String × Nat)
  directionMap : List (String × String)
  nativelyRenderedContent : Option ContentState
deriving DecidableEq, Repr

/-- Query `editorState.getBlockTree(key)`: `undefined` when the key is absent. -/
def EditorState.getBlockTree (s : EditorState) (key : String) : Option Nat :=
  s.blockTrees.lookup key

/-- Query `editorState.getDirectionMap().get(key)`: `undefined` when absent. -/
def EditorState.getDirection (s : EditorState) (key : String) : Option String :=
  s.directionMap.lookup key

/-- The native DOM anchor node as observed by the tab-in-span heuristic
(lines 176-188): its node type, and the name, first-child node type and
first-child node value of its parent. -/
structure NativeAnchorNode where
  nodeType : Nat
  parentNodeName : String
  parentFirstChildNodeType : Nat
  parentFirstChildNodeValue : String
deriving DecidableEq, Repr

/-- The result of `global.getSelection()`: possibly no anchor node. -/
structure NativeSelection where
  anchorNode : Option NativeAnchorNode
deriving DecidableEq, Repr

/-- The environment of one handler invocation: the browser sniff, the DOM
selection, the external content-model operations, and the optional
`handleBeforeInput` prop (already composed with `isEventHandled`, so it
returns whether the event was handled). -/
structure Env where
  isFirefox : Bool
  nativeSelection : NativeSelection
  modifierReplaceText :
    ContentState → SelectionState → String → List String → Option String → ContentState
  push : EditorState → ContentState → String → EditorState
  forceSelection : EditorState → SelectionState → EditorState
  getEntityKeyForSelection : ContentState → SelectionState → Option String
  getFingerprint : Nat → String
  isSelectionAtLeafStart : EditorState → Bool
  handleBeforeInput : Option (String → EditorState → Bool)

/-- The editor component fields the handler reads and writes:
`_pendingStateFromBeforeInput`, `_latestEditorState`,
`_latestCommittedEditorState`. -/
structure Editor where
  pendingStateFromBeforeInput : Option EditorState
  latestEditorState : EditorState
  latestCommittedEditorState : EditorState
deriving DecidableEq, Repr

/-- Source line 37: `var FF_QUICKFIND_CHAR = "'";` -/
def FF_QUICKFIND_CHAR : String := "\x27"

/-- Source line 38: `var FF_QUICKFIND_LINK_CHAR = '/';` -/
def FF_QUICKFIND_LINK_CHAR : String := "/"

/-- Source lines 41-46: `mustPreventDefaultForCharacter`, with the
module-level `isFirefox` passed explicitly. -/
def mustPreventDefaultForCharacter (isFirefox : Bool) (character : String) : Bool :=
  isFirefox &&
    (character == FF_QUICKFIND_CHAR || character == FF_QUICKFIND_LINK_CHAR)

/-- Source lines 52-66: replace the current selection with `text`, with the
inline style and entity key applied, pushed as an insert-characters
change. -/
def replaceText (env : Env) (editorState : EditorState) (text : String)
    (inlineStyle : List String) (entityKey : Option String) : EditorState :=
  let contentState :=
    env.modifierReplaceText editorState.currentContent editorState.selection
      text inlineStyle entityKey
  env.push editorState contentState "insert-characters"

/-- JavaScript `String.prototype.slice(start, stop)` on non-negative
indices: characters from `start` (inclusive) to `stop` (exclusive),
clamped to the string, empty when `start >= stop`. -/
def stringSlice (s : String) (start stop : Nat) : String :=
  String.mk ((s.data.drop start).take (stop - start))

/-- Lines 101-104: the event is handled when the `handleBeforeInput` prop
exists and `isEventHandled` accepts its result. -/
def handledByProp (env : Env) (chars : String) (editorState : EditorState) : Bool :=
  match env.handleBeforeInput with
  | some handler => handler chars editorState
  | none => false

/-- Lines 176-188: the Chrome tab-in-span heuristic.  When the native DOM
anchor node is a text node, prevention is decided by whether its parent is
a SPAN whose first child is a text node containing a tab character. -/
def tabInSpanHeuristic (ns : NativeSelection) : Bool :=
  match ns.anchorNode with
  | none => false
  | some an =>
    if an.nodeType == NodeTEXTNODE then
      an.parentNodeName == "SPAN" &&
        (an.parentFirstChildNodeType == NodeTEXTNODE &&
          an.parentFirstChildNodeValue.contains '\t')
    else false

/-- Lines 190-200: the block-tree fingerprints of the anchor block in the
old and new editor states differ. -/
def fingerprintChanged (env : Env) (oldState newState : EditorState)
    (anchorKey : String) : Bool :=
  ((oldState.getBlockTree anchorKey).map env.getFingerprint) !=
    ((newState.getBlockTree anchorKey).map env.getFingerprint)

/-- Lines 205-208: the direction-map entries for the anchor block differ
between the new and old editor states. -/
def directionChanged (oldState newState : EditorState) (anchorKey : String) : Bool :=
  newState.getDirection anchorKey != oldState.getDirection anchorKey

/-- Names for the five prevent-native heuristic checks of lines 164-209. -/
inductive Check where
  | leafStart
  | tabInSpan
  | fingerprint
  | ffChar
  | direction
deriving DecidableEq, Repr

/-- The value each heuristic check computes when it is evaluated, exactly
as in the corresponding source block. -/
def checkValue (env : Env) (editor : Editor)
    (editorState newEditorState : EditorState) (chars anchorKey : String) :
    Check → Bool
  | .leafStart => env.isSelectionAtLeafStart editor.latestCommittedEditorState
  | .tabInSpan => tabInSpanHeuristic env.nativeSelection
  | .fingerprint => fingerprintChanged env editorState newEditorState anchorKey
  | .ffChar => mustPreventDefaultForCharacter env.isFirefox chars
  | .direction => directionChanged editorState newEditorState anchorKey

/-- The sequential `if (!mustPreventNative)` blocks of lines 164-209: each
check in the list is evaluated only while `mustPreventNative` is still
false; the first check valued true stops the sequence.  Returns the final
`mustPreventNative` and the list of checks actually evaluated, in order. -/
def runChecks (val : Check → Bool) : List Check → Bool × List Check
  | [] => (false, [])
  | c :: rest =>
    if val c then (true, [c])
    else
      let r := runChecks val rest
      (r.1, c :: r.2)

/-- The order in which the source evaluates the checks: leaf start (line
168), tab in span (line 176), fingerprint (line 190), Firefox quickfind
character (line 203), direction map (line 205). -/
def codeCheckOrder : List Check :=
  [.leafStart, .tabInSpan, .fingerprint, .ffChar, .direction]

/-- Modelled from the spec: the order in which the specification lists the
heuristics - "leaf-start?, tab-in-span?, fingerprint changed?, direction
changed?, Firefox quickfind character?". -/
def specCheckOrder : List Check :=
  [.leafStart, .tabInSpan, .fingerprint, .direction, .ffChar]

/-- Lines 131-134: `selection.merge({anchorOffset: selectionEnd,
focusOffset: selectionEnd})` - the selection collapsed to its end
offset. -/
def collapseToEnd (sel : SelectionState) : SelectionState :=
  { sel with anchorOffset := sel.getEndOffset, focusOffset := sel.getEndOffset }

/-- Lines 81-84 and 227-230 (the identical entry flush and `setImmediate`
callback): if a pending state exists, apply it via `editor.update` (which
sets `_latestEditorState`) and reset the pending field.  Returns the new
editor fields and the state that was applied, if any. -/
def flushPendingFromBeforeInput (ed : Editor) : Editor × Option EditorState :=
  match ed.pendingStateFromBeforeInput with
  | some s =>
    ({ ed with latestEditorState := s, pendingStateFromBeforeInput := none },
      some s)
  | none => (ed, none)

/-- Every observable effect of one invocation of the handler:
`preventDefault` - whether `e.preventDefault()` was called;
`entryFlush` - the state applied by the entry flush of lines 81-84, if any;
`updates` - the synchronous `editor.update` calls after the entry flush;
`editor` - the editor fields when the handler returns;
`scheduledImmediate` - whether the `setImmediate` callback of line 226 was
scheduled; `checksPerformed` - the prevent-native checks evaluated. -/
structure Result where
  preventDefault : Bool
  entryFlush : Option EditorState
  updates : List EditorState
  editor : Editor
  scheduledImmediate : Bool
  checksPerformed : List Check
deriving DecidableEq, Repr

/-- Source lines 77-232: `editOnBeforeInput`.  The event's `e.data` is
`eventData` (`none` for absent data); JavaScript `!chars` holds exactly
when the data is absent or the empty string. -/
def editOnBeforeInput (env : Env) (editor0 : Editor) (eventData : Option String) :
    Result :=
  let flushed := flushPendingFromBeforeInput editor0
  let editor := flushed.1
  let entryFlush := flushed.2
  let editorState := editor.latestEditorState
  let chars := eventData.getD ""
  if chars = "" then
    { preventDefault := false, entryFlush := entryFlush, updates := [],
      editor := editor, scheduledImmediate := false, checksPerformed := [] }
  else if handledByProp env chars editorState then
    { preventDefault := true, entryFlush := entryFlush, updates := [],
      editor := editor, scheduledImmediate := false, checksPerformed := [] }
  else
    let selection := editorState.selection
    let selectionStart := selection.getStartOffset
    let selectionEnd := selection.getEndOffset
    let anchorKey := selection.anchorKey
    if !selection.isCollapsed then
      let currentlySelectedChars :=
        stringSlice editorState.currentContent.plainText selectionStart selectionEnd
      if chars = currentlySelectedChars then
        let updated := env.forceSelection editorState (collapseToEnd selection)
        { preventDefault := true, entryFlush := entryFlush, updates := [updated],
          editor := { editor with latestEditorState := updated },
          scheduledImmediate := false, checksPerformed := [] }
      else
        let updated := replaceText env editorState chars
          editorState.currentInlineStyle
          (env.getEntityKeyForSelection editorState.currentContent
            editorState.selection)
        { preventDefault := true, entryFlush := entryFlush, updates := [updated],
          editor := { editor with latestEditorState := updated },
          scheduledImmediate := false, checksPerformed := [] }
    else
      let newEditorState := replaceText env editorState chars
        editorState.currentInlineStyle
        (env.getEntityKeyForSelection editorState.currentContent
          editorState.selection)
      let checks := runChecks
        (checkValue env editor editorState newEditorState chars anchorKey)
        codeCheckOrder
      if checks.1 then
        { preventDefault := true, entryFlush := entryFlush,
          updates := [newEditorState],
          editor := { editor with latestEditorState := newEditorState },
          scheduledImmediate := false, checksPerformed := checks.2 }
      else
        let pendingState :=
          { newEditorState with
            nativelyRenderedContent := some newEditorState.currentContent }
        { preventDefault := false, entryFlush := entryFlush, updates := [],
          editor := { editor with pendingStateFromBeforeInput := some pendingState },
          scheduledImmediate := true, checksPerformed := checks.2 }

/-- Lines 153-161 (and identically 138-148): the replacement state for the
typed characters, carrying the current inline style and the entity key for
the selection. -/
def newStateAfterInsert (env : Env) (editorState : EditorState) (chars : String) :
    EditorState :=
  replaceText env editorState chars editorState.currentInlineStyle
    (env.getEntityKeyForSelection editorState.currentContent editorState.selection)

/-- Concrete collapsed selection at offset 2 of block b1, used in
witnesses. -/
def selW : SelectionState :=
  { anchorKey := "b1", anchorOffset := 2, focusKey := "b1", focusOffset := 2,
    isBackward := false, hasFocus := true }

/-- Concrete non-collapsed selection over offsets 1-4 of block b1. -/
def selNC : SelectionState :=
  { anchorKey := "b1", anchorOffset := 1, focusKey := "b1", focusOffset := 4,
    isBackward := false, hasFocus := true }

/-- Concrete content used in witnesses. -/
def contentW : ContentState := { plainText := "hello", rest := 0 }

/-- Concrete editor state with the collapsed selection. -/
def stateW : EditorState :=
  { selection := selW, currentContent := contentW, currentInlineStyle := [],
    blockTrees := [("b1", 0)], directionMap := [("b1", "LTR")],
    nativelyRenderedContent := none }

/-- Concrete editor state with the non-collapsed selection. -/
def stateNC : EditorState := { stateW with selection := selNC }

/-- Concrete editor (no pending state) around `stateW`. -/
def editorW : Editor :=
  { pendingStateFromBeforeInput := none, latestEditorState := stateW,
    latestCommittedEditorState := stateW }

/-- Concrete editor (no pending state) around `stateNC`. -/
def editorNC : Editor :=
  { pendingStateFromBeforeInput := none, latestEditorState := stateNC,
    latestCommittedEditorState := stateNC }

/-- Concrete non-Firefox environment whose model operations append the
inserted text to the plain text and leave everything else unchanged. -/
def envW : Env :=
  { isFirefox := false
    nativeSelection := { anchorNode := none }
    modifierReplaceText := fun c _ t _ _ => { plainText := c.plainText ++ t, rest := c.rest }
    push := fun s c _ => { s with currentContent := c }
    forceSelection := fun s sel => { s with selection := sel }
    getEntityKeyForSelection := fun _ _ => none
    getFingerprint := fun n => toString n
    isSelectionAtLeafStart := fun _ => false
    handleBeforeInput := none }

/-- Concrete Firefox environment whose push operation also empties the
direction map, so the direction check and the quickfind check both fire. -/
def envFF : Env :=
  { isFirefox := true
    nativeSelection := { anchorNode := none }
    modifierReplaceText := fun c _ t _ _ => { plainText := c.plainText ++ t, rest := c.rest }
    push := fun s c _ => { s with currentContent := c, directionMap := [] }
    forceSelection := fun s sel => { s with selection := sel }
    getEntityKeyForSelection := fun _ _ => none
    getFingerprint := fun _ => "fp"
    isSelectionAtLeafStart := fun _ => false
    handleBeforeInput := none }

/-- Concrete environment whose handleBeforeInput prop handles every
event. -/
def envHandled : Env := { envW with handleBeforeInput := some (fun _ _ => true) }

theorem runChecks_fst_false_iff (val : Check → Bool) (l : List Check) :
    (runChecks val l).1 = false ↔ ∀ c ∈ l, val c = false := by
  induction l with
  | nil => simp [runChecks]
  | cons c rest ih =>
    by_cases h : val c = true
    · simp [runChecks, h]
    · simp only [Bool.not_eq_true] at h
      simp [runChecks, h, ih]

theorem runChecks_snd_of_fst_false (val : Check → Bool) (l : List Check)
    (h : (runChecks val l).1 = false) : (runChecks val l).2 = l := by
  induction l with
  | nil => simp [runChecks]
  | cons c rest ih =>
    by_cases hc : val c = true
    · simp [runChecks, hc] at h
    · simp only [Bool.not_eq_true] at hc
      simp only [runChecks, hc, Bool.false_eq_true, if_false] at h ⊢
      simp [ih h]

theorem runChecks_snd_initSeg (val : Check → Bool) (l : List Check) :
    (runChecks val l).2 <+: l := by
  induction l with
  | nil => simp [runChecks]
  | cons c rest ih =>
    by_cases hc : val c = true
    · simp [runChecks, hc, List.prefix_cons_inj]
    · simp only [Bool.not_eq_true] at hc
      simpa [runChecks, hc] using ih

theorem runChecks_snd_dropLast (val : Check → Bool) (l : List Check) :
    ∀ c ∈ (runChecks val l).2.dropLast, val c = false := by
  induction l with
  | nil => simp [runChecks]
  | cons c rest ih =>
    by_cases hc : val c = true
    · simp [runChecks, hc]
    · simp only [Bool.not_eq_true] at hc
      intro d hd
      simp only [runChecks, hc, Bool.false_eq_true, if_false] at hd
      rcases List.eq_nil_or_concat (runChecks val rest).2 with hnil | ⟨ys, y, hys⟩
      · rw [hnil] at hd
        simp at hd
      · rw [List.concat_eq_append] at hys
        rw [hys] at hd
        rw [show c :: (ys ++ [y]) = (c :: ys) ++ [y] from rfl] at hd
        rw [List.dropLast_concat] at hd
        rcases List.mem_cons.mp hd with h1 | h2
        · exact h1 ▸ hc
        · exact ih d (by rw [hys, List.dropLast_concat]; exact h2)

theorem runChecks_getLast_of_fst_true (val : Check → Bool) (l : List Check)
    (h : (runChecks val l).1 = true) :
    ∃ c, (runChecks val l).2.getLast? = some c ∧ val c = true := by
  induction l with
  | nil => simp [runChecks] at h
  | cons c rest ih =>
    by_cases hc : val c = true
    · exact ⟨c, by simp [runChecks, hc], hc⟩
    · simp only [Bool.not_eq_true] at hc
      simp only [runChecks, hc, Bool.false_eq_true, if_false] at h ⊢
      obtain ⟨d, hd, hval⟩ := ih h
      refine ⟨d, ?_, hval⟩
      rcases List.eq_nil_or_concat (runChecks val rest).2 with hnil | ⟨ys, y, hys⟩
      · rw [hnil] at hd
        simp at hd
      · rw [List.concat_eq_append] at hys
        rw [hys] at hd ⊢
        rw [show c :: (ys ++ [y]) = (c :: ys) ++ [y] from rfl]
        rw [List.getLast?_concat] at hd ⊢
        exact hd

theorem forall_codeCheckOrder_iff (val : Check → Bool) :
    (∀ c ∈ codeCheckOrder, val c = false) ↔
      (val .leafStart = false ∧ val .tabInSpan = false ∧ val .fingerprint = false ∧
        val .ffChar = false ∧ val .direction = false) := by
  simp [codeCheckOrder]

/-- Evaluation of the handler on the collapsed, unhandled, non-empty path:
the result is determined by `runChecks` over `codeCheckOrder`. -/
theorem editOnBeforeInput_collapsed_spec
    (env : Env) (editor0 : Editor) (chars : String)
    (editor : Editor) (st new : EditorState)
    (hed : editor = (flushPendingFromBeforeInput editor0).1)
    (hst : st = editor.latestEditorState)
    (hnew : new = newStateAfterInsert env st chars)
    (hc : chars ≠ "")
    (hh : handledByProp env chars st = false)
    (hcol : st.selection.isCollapsed = true) :
    editOnBeforeInput env editor0 (some chars) =
      if (runChecks (checkValue env editor st new chars st.selection.anchorKey)
            codeCheckOrder).1 then
        { preventDefault := true,
          entryFlush := (flushPendingFromBeforeInput editor0).2,
          updates := [new],
          editor := { editor with latestEditorState := new },
          scheduledImmediate := false,
          checksPerformed :=
            (runChecks (checkValue env editor st new chars st.selection.anchorKey)
              codeCheckOrder).2 }
      else
        { preventDefault := false,
          entryFlush := (flushPendingFromBeforeInput editor0).2,
          updates := [],
          editor :=
            { editor with
              pendingStateFromBeforeInput :=
                some { new with nativelyRenderedContent := some new.currentContent } },
          scheduledImmediate := true,
          checksPerformed :=
            (runChecks (checkValue env editor st new chars st.selection.anchorKey)
              codeCheckOrder).2 } := by
  subst hed hst hnew
  unfold editOnBeforeInput
  simp only [Option.getD_some, newStateAfterInsert, if_neg hc, hh,
    Bool.false_eq_true, if_false, hcol, Bool.not_true]

/-- C1: for a beforeinput event with non-empty character data that the
handleBeforeInput prop does not handle and a collapsed selection, the
handler allows native insertion (no preventDefault and no synchronous
update) if and only if all five prevent-native heuristics are false:
leaf start in the latest committed state, tab-in-span in the native DOM
selection, fingerprint change of the anchor block, Firefox quickfind
character, and direction-map change of the anchor block. -/
theorem editOnBeforeInput_native_iff_no_heuristic
    (env : Env) (editor0 : Editor) (chars : String)
    (editor : Editor) (st new : EditorState)
    (hed : editor = (flushPendingFromBeforeInput editor0).1)
    (hst : st = editor.latestEditorState)
    (hnew : new = newStateAfterInsert env st chars)
    (hc : chars ≠ "")
    (hh : handledByProp env chars st = false)
    (hcol : st.selection.isCollapsed = true) :
    ((editOnBeforeInput env editor0 (some chars)).preventDefault = false ∧
      (editOnBeforeInput env editor0 (some chars)).updates = []) ↔
    (env.isSelectionAtLeafStart editor.latestCommittedEditorState = false ∧
      tabInSpanHeuristic env.nativeSelection = false ∧
      fingerprintChanged env st new st.selection.anchorKey = false ∧
      mustPreventDefaultForCharacter env.isFirefox chars = false ∧
      directionChanged st new st.selection.anchorKey = false) := by
  rw [editOnBeforeInput_collapsed_spec env editor0 chars editor st new
    hed hst hnew hc hh hcol]
  have hiff :
      (∀ c ∈ codeCheckOrder,
        checkValue env editor st new chars st.selection.anchorKey c = false) ↔
      (env.isSelectionAtLeafStart editor.latestCommittedEditorState = false ∧
        tabInSpanHeuristic env.nativeSelection = false ∧
        fingerprintChanged env st new st.selection.anchorKey = false ∧
        mustPreventDefaultForCharacter env.isFirefox chars = false ∧
        directionChanged st new st.selection.anchorKey = false) := by
    rw [forall_codeCheckOrder_iff]
    simp [checkValue]
  rw [← hiff, ← runChecks_fst_false_iff]
  by_cases hrc : (runChecks (checkValue env editor st new chars
      st.selection.anchorKey) codeCheckOrder).1 = true
  · simp [hrc]
  · simp only [Bool.not_eq_true] at hrc
    simp [hrc]

/-- Witness for C1: a plain character typed at a collapsed selection in a
concrete non-Firefox environment. -/
theorem editOnBeforeInput_native_iff_no_heuristic_witness :
    ("a" ≠ "" ∧ handledByProp envW "a" stateW = false ∧
      stateW.selection.isCollapsed = true) ∧
    (((editOnBeforeInput envW editorW (some "a")).preventDefault = false ∧
      (editOnBeforeInput envW editorW (some "a")).updates = []) ↔
    (envW.isSelectionAtLeafStart editorW.latestCommittedEditorState = false ∧
      tabInSpanHeuristic envW.nativeSelection = false ∧
      fingerprintChanged envW stateW (newStateAfterInsert envW stateW "a")
        stateW.selection.anchorKey = false ∧
      mustPreventDefaultForCharacter envW.isFirefox "a" = false ∧
      directionChanged stateW (newStateAfterInsert envW stateW "a")
        stateW.selection.anchorKey = false)) :=
  ⟨⟨by decide, rfl, by decide⟩,
    editOnBeforeInput_native_iff_no_heuristic envW editorW "a" editorW stateW
      (newStateAfterInsert envW stateW "a") rfl rfl rfl (by decide) rfl (by decide)⟩

/-- Evaluation of the handler on the non-collapsed, unhandled, non-empty
path (lines 117-151). -/
theorem editOnBeforeInput_noncollapsed_spec
    (env : Env) (editor0 : Editor) (chars : String)
    (editor : Editor) (st : EditorState)
    (hed : editor = (flushPendingFromBeforeInput editor0).1)
    (hst : st = editor.latestEditorState)
    (hc : chars ≠ "")
    (hh : handledByProp env chars st = false)
    (hcol : st.selection.isCollapsed = false) :
    editOnBeforeInput env editor0 (some chars) =
      if chars = stringSlice st.currentContent.plainText
          st.selection.getStartOffset st.selection.getEndOffset then
        { preventDefault := true,
          entryFlush := (flushPendingFromBeforeInput editor0).2,
          updates := [env.forceSelection st (collapseToEnd st.selection)],
          editor :=
            { editor with
              latestEditorState :=
                env.forceSelection st (collapseToEnd st.selection) },
          scheduledImmediate := false, checksPerformed := [] }
      else
        { preventDefault := true,
          entryFlush := (flushPendingFromBeforeInput editor0).2,
          updates := [newStateAfterInsert env st chars],
          editor :=
            { editor with
              latestEditorState := newStateAfterInsert env st chars },
          scheduledImmediate := false, checksPerformed := [] } := by
  subst hed hst
  unfold editOnBeforeInput
  simp only [Option.getD_some, newStateAfterInsert, if_neg hc, hh,
    Bool.false_eq_true, if_false, hcol, Bool.not_false, if_true]

/-- Evaluation of the handler when the handleBeforeInput prop reports the
event handled (lines 101-107). -/
theorem editOnBeforeInput_handled_eq
    (env : Env) (editor0 : Editor) (chars : String)
    (editor : Editor) (st : EditorState)
    (hed : editor = (flushPendingFromBeforeInput editor0).1)
    (hst : st = editor.latestEditorState)
    (hc : chars ≠ "")
    (hh : handledByProp env chars st = true) :
    editOnBeforeInput env editor0 (some chars) =
      { preventDefault := true,
        entryFlush := (flushPendingFromBeforeInput editor0).2,
        updates := [], editor := editor, scheduledImmediate := false,
        checksPerformed := [] } := by
  subst hed hst
  unfold editOnBeforeInput
  simp only [Option.getD_some, if_neg hc, hh, if_true]

/-- C2: for a beforeinput event with non-empty character data not handled
by the prop, a non-collapsed selection always leads to preventDefault plus
exactly one synchronous editor update, and no native insertion (no
setImmediate deferral) ever happens. -/
theorem editOnBeforeInput_noncollapsed_rerender
    (env : Env) (editor0 : Editor) (chars : String)
    (editor : Editor) (st : EditorState)
    (hed : editor = (flushPendingFromBeforeInput editor0).1)
    (hst : st = editor.latestEditorState)
    (hc : chars ≠ "")
    (hh : handledByProp env chars st = false)
    (hcol : st.selection.isCollapsed = false) :
    (editOnBeforeInput env editor0 (some chars)).preventDefault = true ∧
    (editOnBeforeInput env editor0 (some chars)).updates.length = 1 ∧
    (editOnBeforeInput env editor0 (some chars)).scheduledImmediate = false := by
  rw [editOnBeforeInput_noncollapsed_spec env editor0 chars editor st
    hed hst hc hh hcol]
  by_cases hm : chars = stringSlice st.currentContent.plainText
      st.selection.getStartOffset st.selection.getEndOffset
  · simp [hm]
  · simp [hm]

/-- Witness for C2: typing a character over a concrete non-collapsed
selection. -/
theorem editOnBeforeInput_noncollapsed_rerender_witness :
    ("x" ≠ "" ∧ handledByProp envW "x" stateNC = false ∧
      stateNC.selection.isCollapsed = false) ∧
    ((editOnBeforeInput envW editorNC (some "x")).preventDefault = true ∧
      (editOnBeforeInput envW editorNC (some "x")).updates.length = 1 ∧
      (editOnBeforeInput envW editorNC (some "x")).scheduledImmediate = false) :=
  ⟨⟨by decide, rfl, by decide⟩,
    editOnBeforeInput_noncollapsed_rerender envW editorNC "x" editorNC stateNC
      rfl rfl (by decide) rfl (by decide)⟩

/-- C3: whenever the handler intercepts the insertion (any prevent-native
outcome on the collapsed path, or a non-collapsed selection whose selected
text differs from the typed characters), the editor is synchronously
updated with exactly the state obtained by replacing the current selection
with the typed characters, carrying the current inline style and the
entity key for the selection, pushed as an insert-characters change. -/
theorem editOnBeforeInput_intercept_replaces_text
    (env : Env) (editor0 : Editor) (chars : String)
    (editor : Editor) (st new : EditorState)
    (hed : editor = (flushPendingFromBeforeInput editor0).1)
    (hst : st = editor.latestEditorState)
    (hnew : new = newStateAfterInsert env st chars)
    (hc : chars ≠ "")
    (hh : handledByProp env chars st = false)
    (hcase :
      (st.selection.isCollapsed = false ∧
        chars ≠ stringSlice st.currentContent.plainText
          st.selection.getStartOffset st.selection.getEndOffset) ∨
      (st.selection.isCollapsed = true ∧
        (runChecks (checkValue env editor st new chars st.selection.anchorKey)
          codeCheckOrder).1 = true)) :
    (editOnBeforeInput env editor0 (some chars)).preventDefault = true ∧
    (editOnBeforeInput env editor0 (some chars)).updates =
      [env.push st
        (env.modifierReplaceText st.currentContent st.selection chars
          st.currentInlineStyle
          (env.getEntityKeyForSelection st.currentContent st.selection))
        "insert-characters"] := by
  rcases hcase with ⟨hcol, hne⟩ | ⟨hcol, hrc⟩
  · rw [editOnBeforeInput_noncollapsed_spec env editor0 chars editor st
      hed hst hc hh hcol]
    simp [hne, newStateAfterInsert, replaceText]
  · rw [editOnBeforeInput_collapsed_spec env editor0 chars editor st new
      hed hst hnew hc hh hcol, if_pos hrc]
    simp [hnew, newStateAfterInsert, replaceText]

/-- Witness for C3: the non-collapsed case with replacement text different
from the selected slice. -/
theorem editOnBeforeInput_intercept_replaces_text_witness :
    ("x" ≠ "" ∧ handledByProp envW "x" stateNC = false ∧
      (stateNC.selection.isCollapsed = false ∧
        "x" ≠ stringSlice stateNC.currentContent.plainText
          stateNC.selection.getStartOffset stateNC.selection.getEndOffset)) ∧
    ((editOnBeforeInput envW editorNC (some "x")).preventDefault = true ∧
      (editOnBeforeInput envW editorNC (some "x")).updates =
        [envW.push stateNC
          (envW.modifierReplaceText stateNC.currentContent stateNC.selection "x"
            stateNC.currentInlineStyle
            (envW.getEntityKeyForSelection stateNC.currentContent
              stateNC.selection))
          "insert-characters"]) :=
  ⟨⟨by decide, rfl, by decide, by decide⟩,
    editOnBeforeInput_intercept_replaces_text envW editorNC "x" editorNC stateNC
      (newStateAfterInsert envW stateNC "x") rfl rfl rfl (by decide) rfl
      (Or.inl ⟨by decide, by decide⟩)⟩

/-- C9: when the selection is not collapsed but the typed characters equal
exactly the slice of the plain text between the selection's start and end
offsets, the only update is a forceSelection of the unchanged editor state
with the selection collapsed to the end offset (anchorOffset and
focusOffset both set to the end offset). -/
theorem editOnBeforeInput_matching_text_collapses_selection
    (env : Env) (editor0 : Editor) (chars : String)
    (editor : Editor) (st : EditorState)
    (hed : editor = (flushPendingFromBeforeInput editor0).1)
    (hst : st = editor.latestEditorState)
    (hc : chars ≠ "")
    (hh : handledByProp env chars st = false)
    (hcol : st.selection.isCollapsed = false)
    (hm : chars = stringSlice st.currentContent.plainText
      st.selection.getStartOffset st.selection.getEndOffset) :
    (editOnBeforeInput env editor0 (some chars)).updates =
      [env.forceSelection st (collapseToEnd st.selection)] ∧
    (collapseToEnd st.selection).anchorOffset = st.selection.getEndOffset ∧
    (collapseToEnd st.selection).focusOffset = st.selection.getEndOffset ∧
    (editOnBeforeInput env editor0 (some chars)).preventDefault = true ∧
    (editOnBeforeInput env editor0 (some chars)).scheduledImmediate = false := by
  rw [editOnBeforeInput_noncollapsed_spec env editor0 chars editor st
    hed hst hc hh hcol]
  simp [hm, collapseToEnd]

/-- Witness for C9: typing exactly the selected slice "ell" of "hello". -/
theorem editOnBeforeInput_matching_text_collapses_selection_witness :
    ("ell" ≠ "" ∧ handledByProp envW "ell" stateNC = false ∧
      stateNC.selection.isCollapsed = false ∧
      "ell" = stringSlice stateNC.currentContent.plainText
        stateNC.selection.getStartOffset stateNC.selection.getEndOffset) ∧
    ((editOnBeforeInput envW editorNC (some "ell")).updates =
      [envW.forceSelection stateNC (collapseToEnd stateNC.selection)] ∧
      (collapseToEnd stateNC.selection).anchorOffset =
        stateNC.selection.getEndOffset ∧
      (collapseToEnd stateNC.selection).focusOffset =
        stateNC.selection.getEndOffset ∧
      (editOnBeforeInput envW editorNC (some "ell")).preventDefault = true ∧
      (editOnBeforeInput envW editorNC (some "ell")).scheduledImmediate = false) :=
  ⟨⟨by decide, rfl, by decide, by decide⟩,
    editOnBeforeInput_matching_text_collapses_selection envW editorNC "ell"
      editorNC stateNC rfl rfl (by decide) rfl (by decide) (by decide)⟩

/-- C10: when the handleBeforeInput prop reports the event handled, the
handler calls preventDefault and returns leaving the editor exactly as it
stood after the entry flush: no update, no pending state change, no
deferral. -/
theorem editOnBeforeInput_handled_frame
    (env : Env) (editor0 : Editor) (chars : String)
    (editor : Editor) (st : EditorState)
    (hed : editor = (flushPendingFromBeforeInput editor0).1)
    (hst : st = editor.latestEditorState)
    (hc : chars ≠ "")
    (hh : handledByProp env chars st = true) :
    (editOnBeforeInput env editor0 (some chars)).preventDefault = true ∧
    (editOnBeforeInput env editor0 (some chars)).updates = [] ∧
    (editOnBeforeInput env editor0 (some chars)).editor = editor ∧
    (editOnBeforeInput env editor0 (some chars)).scheduledImmediate = false := by
  rw [editOnBeforeInput_handled_eq env editor0 chars editor st hed hst hc hh]
  exact ⟨rfl, rfl, rfl, rfl⟩

/-- Witness for C10: an environment whose prop handles every event. -/
theorem editOnBeforeInput_handled_frame_witness :
    ("a" ≠ "" ∧ handledByProp envHandled "a" stateW = true) ∧
    ((editOnBeforeInput envHandled editorW (some "a")).preventDefault = true ∧
      (editOnBeforeInput envHandled editorW (some "a")).updates = [] ∧
      (editOnBeforeInput envHandled editorW (some "a")).editor = editorW ∧
      (editOnBeforeInput envHandled editorW (some "a")).scheduledImmediate = false) :=
  ⟨⟨by decide, rfl⟩,
    editOnBeforeInput_handled_frame envHandled editorW "a" editorW stateW
      rfl rfl (by decide) rfl⟩

/-- C6: when the event carries no character data (absent or empty string),
the handler returns right after the entry flush: no preventDefault, no
update, no deferral, and the editor fields are exactly those left by the
entry flush. -/
theorem editOnBeforeInput_nodata_frame
    (env : Env) (editor0 : Editor) (eventData : Option String)
    (h : eventData = none ∨ eventData = some "") :
    editOnBeforeInput env editor0 eventData =
      { preventDefault := false,
        entryFlush := (flushPendingFromBeforeInput editor0).2,
        updates := [],
        editor := (flushPendingFromBeforeInput editor0).1,
        scheduledImmediate := false,
        checksPerformed := [] } := by
  have hch : eventData.getD "" = "" := by rcases h with h | h <;> simp [h]
  unfold editOnBeforeInput
  simp [hch]

/-- Witness for C6: an event with absent data and a pending state to
flush. -/
theorem editOnBeforeInput_nodata_frame_witness :
    ((none : Option String) = none ∨ (none : Option String) = some "") ∧
    editOnBeforeInput envW editorW none =
      { preventDefault := false,
        entryFlush := (flushPendingFromBeforeInput editorW).2,
        updates := [],
        editor := (flushPendingFromBeforeInput editorW).1,
        scheduledImmediate := false,
        checksPerformed := [] } :=
  ⟨Or.inl rfl, editOnBeforeInput_nodata_frame envW editorW none (Or.inl rfl)⟩

theorem runChecks_fst_eq_any (val : Check → Bool) (l : List Check) :
    (runChecks val l).1 = l.any val := by
  induction l with
  | nil => simp [runChecks]
  | cons c rest ih =>
    by_cases h : val c = true
    · simp [runChecks, h]
    · simp only [Bool.not_eq_true] at h
      simp [runChecks, h, ih]

theorem editOnBeforeInput_entryFlush_eq (env : Env) (ed : Editor)
    (e : Option String) :
    (editOnBeforeInput env ed e).entryFlush = (flushPendingFromBeforeInput ed).2 := by
  unfold editOnBeforeInput
  dsimp only
  split_ifs <;> rfl

/-- C4: on the collapsed unhandled path with the leaf-start and tab-in-span
heuristics both false, a fingerprint difference of the anchor block between
the pre- and post-insertion states forces prevention of native insertion;
when the fingerprints are equal, the decision is exactly that of the two
remaining checks (Firefox quickfind character, direction change), so the
fingerprint check by itself never prevents in that case. -/
theorem editOnBeforeInput_fingerprint_gate
    (env : Env) (editor0 : Editor) (chars : String)
    (editor : Editor) (st new : EditorState)
    (hed : editor = (flushPendingFromBeforeInput editor0).1)
    (hst : st = editor.latestEditorState)
    (hnew : new = newStateAfterInsert env st chars)
    (hc : chars ≠ "")
    (hh : handledByProp env chars st = false)
    (hcol : st.selection.isCollapsed = true)
    (hleaf : env.isSelectionAtLeafStart editor.latestCommittedEditorState = false)
    (htab : tabInSpanHeuristic env.nativeSelection = false) :
    (fingerprintChanged env st new st.selection.anchorKey = true →
      (editOnBeforeInput env editor0 (some chars)).preventDefault = true) ∧
    (fingerprintChanged env st new st.selection.anchorKey = false →
      (editOnBeforeInput env editor0 (some chars)).preventDefault =
        (mustPreventDefaultForCharacter env.isFirefox chars ||
          directionChanged st new st.selection.anchorKey)) := by
  rw [editOnBeforeInput_collapsed_spec env editor0 chars editor st new
    hed hst hnew hc hh hcol]
  constructor
  · intro hfp
    have hfst : (runChecks (checkValue env editor st new chars
        st.selection.anchorKey) codeCheckOrder).1 = true := by
      simp [runChecks_fst_eq_any, codeCheckOrder, checkValue, hleaf, htab, hfp]
    rw [if_pos hfst]
  · intro hfp
    have hfst : (runChecks (checkValue env editor st new chars
        st.selection.anchorKey) codeCheckOrder).1 =
        (mustPreventDefaultForCharacter env.isFirefox chars ||
          directionChanged st new st.selection.anchorKey) := by
      simp [runChecks_fst_eq_any, codeCheckOrder, checkValue, hleaf, htab, hfp]
    by_cases hb : (mustPreventDefaultForCharacter env.isFirefox chars ||
        directionChanged st new st.selection.anchorKey) = true
    · rw [hb] at hfst
      rw [if_pos hfst, hb]
    · simp only [Bool.not_eq_true] at hb
      rw [hb] at hfst
      rw [if_neg (by simp [hfst]), hb]

/-- Witness for C4: a concrete collapsed editor with leaf-start and
tab-in-span false and equal fingerprints. -/
theorem editOnBeforeInput_fingerprint_gate_witness :
    ("a" ≠ "" ∧ handledByProp envW "a" stateW = false ∧
      stateW.selection.isCollapsed = true ∧
      envW.isSelectionAtLeafStart editorW.latestCommittedEditorState = false ∧
      tabInSpanHeuristic envW.nativeSelection = false) ∧
    ((fingerprintChanged envW stateW (newStateAfterInsert envW stateW "a")
        stateW.selection.anchorKey = true →
      (editOnBeforeInput envW editorW (some "a")).preventDefault = true) ∧
    (fingerprintChanged envW stateW (newStateAfterInsert envW stateW "a")
        stateW.selection.anchorKey = false →
      (editOnBeforeInput envW editorW (some "a")).preventDefault =
        (mustPreventDefaultForCharacter envW.isFirefox "a" ||
          directionChanged stateW (newStateAfterInsert envW stateW "a")
            stateW.selection.anchorKey))) :=
  ⟨⟨by decide, rfl, by decide, rfl, by decide⟩,
    editOnBeforeInput_fingerprint_gate envW editorW "a" editorW stateW
      (newStateAfterInsert envW stateW "a") rfl rfl rfl (by decide) rfl
      (by decide) rfl (by decide)⟩

/-- C5: mustPreventDefaultForCharacter holds exactly for Firefox and the
characters ' and /; consequently, on Firefox, a quickfind character typed
at a collapsed selection always leads to preventDefault and never to
native insertion (no deferral), whether or not the prop handles the
event. -/
theorem mustPreventDefaultForCharacter_quickfind
    (isFx : Bool) (c : String)
    (env : Env) (editor0 : Editor) (chars : String)
    (editor : Editor) (st : EditorState)
    (hed : editor = (flushPendingFromBeforeInput editor0).1)
    (hst : st = editor.latestEditorState)
    (hff : env.isFirefox = true)
    (hchar : chars = FF_QUICKFIND_CHAR ∨ chars = FF_QUICKFIND_LINK_CHAR)
    (hcol : st.selection.isCollapsed = true) :
    (mustPreventDefaultForCharacter isFx c = true ↔
      (isFx = true ∧ (c = FF_QUICKFIND_CHAR ∨ c = FF_QUICKFIND_LINK_CHAR))) ∧
    ((editOnBeforeInput env editor0 (some chars)).preventDefault = true ∧
      (editOnBeforeInput env editor0 (some chars)).scheduledImmediate = false) := by
  have hc : chars ≠ "" := by
    rcases hchar with h | h <;> subst h <;> decide
  refine ⟨?_, ?_⟩
  · simp [mustPreventDefaultForCharacter]
  · by_cases hh : handledByProp env chars st = true
    · rw [editOnBeforeInput_handled_eq env editor0 chars editor st hed hst hc hh]
      exact ⟨rfl, rfl⟩
    · simp only [Bool.not_eq_true] at hh
      rw [editOnBeforeInput_collapsed_spec env editor0 chars editor st
        (newStateAfterInsert env st chars) hed hst rfl hc hh hcol]
      have hval : checkValue env editor st (newStateAfterInsert env st chars)
          chars st.selection.anchorKey .ffChar = true := by
        rcases hchar with h | h <;>
          simp [checkValue, mustPreventDefaultForCharacter, hff, h]
      have hfst : (runChecks (checkValue env editor st
          (newStateAfterInsert env st chars) chars st.selection.anchorKey)
          codeCheckOrder).1 = true := by
        by_contra hcon
        simp only [Bool.not_eq_true] at hcon
        have hall := (runChecks_fst_false_iff _ _).mp hcon Check.ffChar
          (by simp [codeCheckOrder])
        rw [hval] at hall
        exact absurd hall (by decide)
      rw [if_pos hfst]
      exact ⟨rfl, rfl⟩

/-- Witness for C5: the character / typed on Firefox at a collapsed
selection. -/
theorem mustPreventDefaultForCharacter_quickfind_witness :
    (envFF.isFirefox = true ∧
      ("/" = FF_QUICKFIND_CHAR ∨ "/" = FF_QUICKFIND_LINK_CHAR) ∧
      stateW.selection.isCollapsed = true) ∧
    ((mustPreventDefaultForCharacter true "/" = true ↔
      (true = true ∧ ("/" = FF_QUICKFIND_CHAR ∨ "/" = FF_QUICKFIND_LINK_CHAR))) ∧
    ((editOnBeforeInput envFF editorW (some "/")).preventDefault = true ∧
      (editOnBeforeInput envFF editorW (some "/")).scheduledImmediate = false)) :=
  ⟨⟨rfl, Or.inr (by decide), by decide⟩,
    mustPreventDefaultForCharacter_quickfind true "/" envFF editorW "/"
      editorW stateW rfl rfl rfl (Or.inr (by decide)) (by decide)⟩

/-- C7 counterexample: in a Firefox environment where typing / changes the
direction-map entry of the anchor block, the handler evaluates the Firefox
quickfind check (which stops the sequence) and never evaluates the
direction check; under the order the spec lists (direction before
quickfind) the direction check would have been evaluated and would itself
have stopped the sequence, so the sequence of checks actually performed
differs from the spec-ordered one. -/
theorem editOnBeforeInput_check_order_counterexample :
    (editOnBeforeInput envFF editorW (some "/")).checksPerformed ≠
      (runChecks (checkValue envFF editorW stateW
          (newStateAfterInsert envFF stateW "/") "/" stateW.selection.anchorKey)
        specCheckOrder).2 ∧
    Check.direction ∉ (editOnBeforeInput envFF editorW (some "/")).checksPerformed ∧
    Check.direction ∈
      (runChecks (checkValue envFF editorW stateW
          (newStateAfterInsert envFF stateW "/") "/" stateW.selection.anchorKey)
        specCheckOrder).2 ∧
    checkValue envFF editorW stateW (newStateAfterInsert envFF stateW "/") "/"
      stateW.selection.anchorKey Check.direction = true := by
  decide

/-- C7 (amended): on the collapsed unhandled path the heuristic checks are
evaluated in the code's order - leaf start, tab in span, fingerprint,
Firefox quickfind character, direction - each later check evaluated only
if every earlier check came out false: the performed sequence is a prefix
of that order, every check before the last performed one came out false,
all five are performed when native insertion is allowed, and when
prevention is forced the last performed check is the one that forced
it. -/
theorem editOnBeforeInput_check_order
    (env : Env) (editor0 : Editor) (chars : String)
    (editor : Editor) (st new : EditorState)
    (hed : editor = (flushPendingFromBeforeInput editor0).1)
    (hst : st = editor.latestEditorState)
    (hnew : new = newStateAfterInsert env st chars)
    (hc : chars ≠ "")
    (hh : handledByProp env chars st = false)
    (hcol : st.selection.isCollapsed = true) :
    (editOnBeforeInput env editor0 (some chars)).checksPerformed <+:
      codeCheckOrder ∧
    (∀ c ∈ (editOnBeforeInput env editor0 (some chars)).checksPerformed.dropLast,
      checkValue env editor st new chars st.selection.anchorKey c = false) ∧
    ((editOnBeforeInput env editor0 (some chars)).preventDefault = false →
      (editOnBeforeInput env editor0 (some chars)).checksPerformed =
        codeCheckOrder) ∧
    ((editOnBeforeInput env editor0 (some chars)).preventDefault = true →
      ∃ c, (editOnBeforeInput env editor0 (some chars)).checksPerformed.getLast? =
          some c ∧
        checkValue env editor st new chars st.selection.anchorKey c = true) := by
  rw [editOnBeforeInput_collapsed_spec env editor0 chars editor st new
    hed hst hnew hc hh hcol]
  by_cases hrc : (runChecks (checkValue env editor st new chars
      st.selection.anchorKey) codeCheckOrder).1 = true
  · rw [if_pos hrc]
    dsimp only
    refine ⟨runChecks_snd_initSeg _ _, runChecks_snd_dropLast _ _, ?_, ?_⟩
    · intro hfalse
      exact absurd hfalse (by decide)
    · intro _
      exact runChecks_getLast_of_fst_true _ _ hrc
  · simp only [Bool.not_eq_true] at hrc
    rw [if_neg (by simp [hrc])]
    dsimp only
    have htr := runChecks_snd_of_fst_false _ _ hrc
    refine ⟨runChecks_snd_initSeg _ _, runChecks_snd_dropLast _ _, ?_, ?_⟩
    · intro _
      exact htr
    · intro htrue
      exact absurd htrue (by decide)

/-- Witness for the amended C7 at a concrete collapsed editor. -/
theorem editOnBeforeInput_check_order_witness :
    ("a" ≠ "" ∧ handledByProp envW "a" stateW = false ∧
      stateW.selection.isCollapsed = true) ∧
    ((editOnBeforeInput envW editorW (some "a")).checksPerformed <+:
      codeCheckOrder ∧
    (∀ c ∈ (editOnBeforeInput envW editorW (some "a")).checksPerformed.dropLast,
      checkValue envW editorW stateW (newStateAfterInsert envW stateW "a") "a"
        stateW.selection.anchorKey c = false) ∧
    ((editOnBeforeInput envW editorW (some "a")).preventDefault = false →
      (editOnBeforeInput envW editorW (some "a")).checksPerformed =
        codeCheckOrder) ∧
    ((editOnBeforeInput envW editorW (some "a")).preventDefault = true →
      ∃ c, (editOnBeforeInput envW editorW (some "a")).checksPerformed.getLast? =
          some c ∧
        checkValue envW editorW stateW (newStateAfterInsert envW stateW "a") "a"
          stateW.selection.anchorKey c = true)) :=
  ⟨⟨by decide, rfl, by decide⟩,
    editOnBeforeInput_check_order envW editorW "a" editorW stateW
      (newStateAfterInsert envW stateW "a") rfl rfl rfl (by decide) rfl
      (by decide)⟩

/-- C8: on the native-insertion path there is no synchronous update; the
post-insertion state, with nativelyRenderedContent set to its current
content, is stored in the pending field and the setImmediate callback is
scheduled; the flush routine (the identical code of the setImmediate
callback, lines 227-230, and of the entry flush, lines 81-84) applies
exactly that pending state via editor.update and resets the pending field
to none, and the entry flush of any next invocation of the handler applies
it likewise. -/
theorem editOnBeforeInput_native_defers_update
    (env : Env) (editor0 : Editor) (chars : String)
    (editor : Editor) (st new pend : EditorState)
    (hed : editor = (flushPendingFromBeforeInput editor0).1)
    (hst : st = editor.latestEditorState)
    (hnew : new = newStateAfterInsert env st chars)
    (hpend : pend = { new with nativelyRenderedContent := some new.currentContent })
    (hc : chars ≠ "")
    (hh : handledByProp env chars st = false)
    (hcol : st.selection.isCollapsed = true)
    (hnone : (runChecks (checkValue env editor st new chars
      st.selection.anchorKey) codeCheckOrder).1 = false) :
    (editOnBeforeInput env editor0 (some chars)).updates = [] ∧
    (editOnBeforeInput env editor0 (some chars)).scheduledImmediate = true ∧
    (editOnBeforeInput env editor0 (some chars)).editor.pendingStateFromBeforeInput =
      some pend ∧
    flushPendingFromBeforeInput (editOnBeforeInput env editor0 (some chars)).editor =
      ({ editor with pendingStateFromBeforeInput := none, latestEditorState := pend },
        some pend) ∧
    ∀ eventData2 : Option String,
      (editOnBeforeInput env (editOnBeforeInput env editor0 (some chars)).editor
        eventData2).entryFlush = some pend := by
  subst hpend
  rw [editOnBeforeInput_collapsed_spec env editor0 chars editor st new
    hed hst hnew hc hh hcol, if_neg (by simp [hnone])]
  refine ⟨rfl, rfl, rfl, rfl, ?_⟩
  intro eventData2
  rw [editOnBeforeInput_entryFlush_eq]
  rfl

/-- Witness for C8 at a concrete collapsed editor where all heuristics are
false. -/
theorem editOnBeforeInput_native_defers_update_witness :
    ("a" ≠ "" ∧ handledByProp envW "a" stateW = false ∧
      stateW.selection.isCollapsed = true ∧
      (runChecks (checkValue envW editorW stateW
        (newStateAfterInsert envW stateW "a") "a" stateW.selection.anchorKey)
        codeCheckOrder).1 = false) ∧
    ((editOnBeforeInput envW editorW (some "a")).updates = [] ∧
    (editOnBeforeInput envW editorW (some "a")).scheduledImmediate = true ∧
    (editOnBeforeInput envW editorW (some "a")).editor.pendingStateFromBeforeInput =
      some ({ newStateAfterInsert envW stateW "a" with
        nativelyRenderedContent :=
          some (newStateAfterInsert envW stateW "a").currentContent }) ∧
    flushPendingFromBeforeInput (editOnBeforeInput envW editorW (some "a")).editor =
      ({ editorW with
          pendingStateFromBeforeInput := none,
          latestEditorState :=
            { newStateAfterInsert envW stateW "a" with
              nativelyRenderedContent :=
                some (newStateAfterInsert envW stateW "a").currentContent } },
        some ({ newStateAfterInsert envW stateW "a" with
          nativelyRenderedContent :=
            some (newStateAfterInsert envW stateW "a").currentContent })) ∧
    ∀ eventData2 : Option String,
      (editOnBeforeInput envW (editOnBeforeInput envW editorW (some "a")).editor
        eventData2).entryFlush =
        some ({ newStateAfterInsert envW stateW "a" with
          nativelyRenderedContent :=
            some (newStateAfterInsert envW stateW "a").currentContent })) :=
  ⟨⟨by decide, rfl, by decide, by decide⟩,
    editOnBeforeInput_native_defers_update envW editorW "a" editorW stateW
      (newStateAfterInsert envW stateW "a")
      ({ newStateAfterInsert envW stateW "a" with
        nativelyRenderedContent :=
          some (newStateAfterInsert envW stateW "a").currentContent })
      rfl rfl rfl rfl (by decide) rfl (by decide) (by decide)⟩

end DraftJS
